import Mathlib

/-!
Verification development for the Asiabot repository: a shallow embedding of
the smart-recharge orchestrator (src/services/recharge_manager.py), the
carrier API gateway retry loop (src/api/client.py), the token refresh
scheduler (src/services/scheduler.py), the primary-receiver designation
(src/database/db_manager.py) and the PID challenge-identifier extraction
(src/bot/handlers.py), together with theorems about them.

Network and storage are modelled as oracles: an `Env` record supplies the
outcome of each outbound call, and the flows return a structured result plus
the ordered list of side effects (`Eff`) they performed.  Python dynamic
values are modelled by the `Json` inductive; Python string introspection
(`str`, `.lower()`, `in`) is modelled character-exactly; `float` balances are
modelled as exact rationals (the decimal-literal subset of Python `float`
parsing; exponent, underscore, inf and nan forms are not produced by the
carrier API and are not modelled).
-/

namespace Asiabot

/-- Parsed JSON payloads as delivered by the gateway (Python dict shapes). -/
inductive Json where
  | null
  | bool (b : Bool)
  | num (n : Int)
  | str (s : String)
  | arr (xs : List Json)
  | obj (fields : List (String × Json))
deriving Repr, BEq

/-- The apostrophe character Python uses to quote strings inside repr. -/
def quoteChar : String := String.singleton (Char.ofNat 39)

def joinComma (l : List String) : String := String.intercalate ", " l

mutual

/-- Python `repr` of a parsed-JSON value (how values print inside containers). -/
def pyRepr : Json → String
  | .null => "None"
  | .bool true => "True"
  | .bool false => "False"
  | .num n => toString n
  | .str s => quoteChar ++ s ++ quoteChar
  | .arr xs => "[" ++ joinComma (pyReprList xs) ++ "]"
  | .obj fs => "\x7b" ++ joinComma (pyReprFields fs) ++ "\x7d"

def pyReprList : List Json → List String
  | [] => []
  | x :: xs => pyRepr x :: pyReprList xs

def pyReprFields : List (String × Json) → List String
  | [] => []
  | (k, v) :: fs => (quoteChar ++ k ++ quoteChar ++ ": " ++ pyRepr v) :: pyReprFields fs

end

/-- Python `str` of a parsed-JSON value: strings render bare, containers repr. -/
def pyStr : Json → String
  | .str s => s
  | j => pyRepr j

/-- Python `isinstance(v, dict)`. -/
def isDict : Json → Bool
  | .obj _ => true
  | _ => false

/-- Python truthiness of a parsed-JSON value. -/
def jtruthy : Json → Bool
  | .null => false
  | .bool b => b
  | .num n => n != 0
  | .str s => s != ""
  | .arr xs => !xs.isEmpty
  | .obj fs => !fs.isEmpty

/-- Python `str.lower()`. -/
def lower (s : String) : String := ⟨s.data.map Char.toLower⟩

/-- Substring search over char lists (Python `needle in hay`). -/
def isInfixB (n : List Char) : List Char → Bool
  | [] => n.isEmpty
  | l@(_ :: t) => n.isPrefixOf l || isInfixB n t

/-- Python `needle in hay` on strings. -/
def containsSub (needle hay : String) : Bool := isInfixB needle.data hay.data

/-- Split a char list at the first occurrence of `c`:
returns the part before it and, when present, the part after it. -/
def splitFirst (c : Char) : List Char → List Char × Option (List Char)
  | [] => ([], none)
  | x :: xs =>
    if x = c then ([], some xs)
    else
      let r := splitFirst c xs
      (x :: r.1, r.2)

/-- Split a char list at every occurrence of `c` (Python `str.split(c)`). -/
def splitAll (c : Char) : List Char → List (List Char)
  | [] => [[]]
  | x :: xs =>
    if x = c then [] :: splitAll c xs
    else
      match splitAll c xs with
      | [] => [[x]]
      | h :: t => (x :: h) :: t

/-- Replace every occurrence of `pat` by `rep`, left to right (Python
`str.replace`); fuel-driven so it stays structurally recursive.  Called with
fuel = length of the list, enough for any non-empty pattern. -/
def replaceFuel (pat rep : List Char) : Nat → List Char → List Char
  | 0, l => l
  | _ + 1, [] => []
  | fuel + 1, x :: xs =>
    if pat.isPrefixOf (x :: xs) then rep ++ replaceFuel pat rep fuel ((x :: xs).drop pat.length)
    else x :: replaceFuel pat rep fuel xs

/-- `str(raw).replace(" IQD", "").replace(",", "")` from `_get_balance_safe`. -/
def cleanBalance (s : String) : String :=
  let l1 := replaceFuel " IQD".data [] s.data.length s.data
  let l2 := replaceFuel [','] [] l1.length l1
  ⟨l2⟩

def isWs (c : Char) : Bool := c == ' ' || c == '\t' || c == '\n' || c == '\r'

/-- Python `float()` strips surrounding whitespace before parsing. -/
def trimWs (l : List Char) : List Char :=
  ((l.dropWhile isWs).reverse.dropWhile isWs).reverse

def digitsVal (l : List Char) : Nat := l.foldl (fun a c => 10 * a + (c.toNat - 48)) 0

def allDigits (l : List Char) : Bool := l.all (·.isDigit)

/-- Python `float()` on the decimal-literal subset (optional sign, digits,
optional single decimal point); `none` models a raised `ValueError`. -/
def pyFloat? (s : String) : Option ℚ :=
  let t := trimWs s.data
  let signed : Int × List Char :=
    match t with
    | '-' :: r => (-1, r)
    | '+' :: r => (1, r)
    | r => (1, r)
  let body := signed.2
  let sp := splitFirst '.' body
  match sp.2 with
  | none =>
    if body ≠ [] ∧ allDigits body then some (mkRat (signed.1 * (digitsVal body : Int)) 1)
    else none
  | some fp =>
    let ip := sp.1
    if allDigits ip ∧ allDigits fp ∧ (ip ≠ [] ∨ fp ≠ []) then
      some (mkRat (signed.1 * ((digitsVal ip : Int) * (10 : Int) ^ fp.length + (digitsVal fp : Int)))
        ((10 : Nat) ^ fp.length))
    else none

/-- Exact subtraction on ℚ in a kernel-computable form (equals `a - b`,
see `qsub_eq_sub`). -/
def qsub (a b : ℚ) : ℚ := mkRat (a.num * (b.den : Int) - b.num * (a.den : Int)) (a.den * b.den)

/-- `0 < a` on ℚ in a kernel-computable form (equals `0 < a`, see `qpos_iff`). -/
def qpos (a : ℚ) : Bool := 0 < a.num

/-- An exception as observed by Python callers: optional HTTP status attribute
(present on `aiohttp.ClientResponseError`) and the text `str(e)` yields. -/
structure ExnInfo where
  status : Option Nat
  text : String
deriving Repr, DecidableEq, BEq

/-- The pydantic `TokenResponse` model (src/api/models.py): every field
optional. -/
structure TokenResp where
  accessToken : Option String
  refreshToken : Option String
  message : Option String
deriving Repr, DecidableEq, BEq

/-- A stored account row (src/database/schema, as consumed by the flows). -/
structure Account where
  phone : String
  userId : Int
  deviceId : String
  cookie : String
  accessToken : String
  refreshToken : String
  isPrimaryReceiver : Bool
deriving Repr, DecidableEq, BEq

/-- Side effects performed by a flow, in order.  Submit and balance effects
record the bearer token the request carried. -/
inductive Eff where
  | submitCall (senderPhone : String) (attempt : Nat) (token : String)
  | balanceCall (idx : Nat) (token : String)
  | refreshCall (phone : String)
  | updateTokens (phone access : String) (refresh : Option String)
  | sleep (seconds : Nat)
  | notify (userId : Int) (message : String)
deriving Repr, DecidableEq, BEq

/-- Structured rendering of the strings `process_smart_recharge` returns:
one constructor per `return` site, carrying exactly the data interpolated
into that message. -/
inductive RResult where
  | noReceiver
  | noAccounts
  | receiverUnreachable (phone : String)
  | voucherInvalidResp
  | success (diff prev new : ℚ) (receiver sender voucher : String)
  | unconfirmed (prev : ℚ)
  | successAfterRefresh (diff new : ℚ)
  | voucherInvalidExn
  | allFailed (tried : List String)
deriving Repr, DecidableEq, BEq

/-- Oracle for the gateway: outcome of each outbound call.  `submit` is keyed
by sender phone and attempt number (0 = first, 1 = the one retry), `balance`
by a running probe index (every probe in `process_smart_recharge` targets the
receiver), `refresh` by the account phone. -/
structure Env where
  submit : String → Nat → Except ExnInfo Json
  balance : Nat → Except ExnInfo Json
  refresh : String → Except ExnInfo TokenResp

/-- Python `maybe_dict.get(key, default_empty_dict)` followed by use as a
dict: a missing key yields the empty dict, a present dict passes through, a
present non-dict raises (`none`) when `.get` is then called on it. -/
def dictOrRaise : Option Json → Option (List (String × Json))
  | none => some []
  | some (.obj fs) => some fs
  | some _ => none

/-- `RechargeManager._get_balance_safe` (recharge_manager.py lines 11-30)
applied to the outcome of the `get_balance` call: never raises; parses
`watch.information.mainBalance` with the " IQD"/comma stripping, returns
`none` on any failure. -/
def getBalanceSafe (o : Except ExnInfo Json) : Option ℚ :=
  match o with
  | .error _ => none
  | .ok body =>
    match body with
    | .obj fs =>
      match dictOrRaise (fs.lookup "watch") with
      | none => none
      | some ws =>
        match dictOrRaise (ws.lookup "information") with
        | none => none
        | some infos =>
          match infos.lookup "mainBalance" with
          | none => none
          | some raw => if jtruthy raw then pyFloat? (cleanBalance (pyStr raw)) else none
    | _ => none

/-- recharge_manager.py line 40: `token_resp.refresh_token or
account["refresh_token"]` — Python `or` falls back on `None` and on the empty
string. -/
def refreshFallback (resp : Option String) (stored : String) : String :=
  match resp with
  | none => stored
  | some r => if r = "" then stored else r

/-- `RechargeManager._refresh_and_update` (recharge_manager.py lines 32-45):
one refresh call; on a truthy access token, persist the pair (falling back to
the stored refresh token when the response omits or blanks it) and return the
new access token; otherwise return `none`. -/
def refreshAndUpdate (env : Env) (acc : Account) : Option String × List Eff :=
  match env.refresh acc.phone with
  | .error _ => (none, [.refreshCall acc.phone])
  | .ok tr =>
    match tr.accessToken with
    | none => (none, [.refreshCall acc.phone])
    | some a =>
      if a = "" then (none, [.refreshCall acc.phone])
      else
        (some a,
         [.refreshCall acc.phone,
          .updateTokens acc.phone a (some (refreshFallback tr.refreshToken acc.refreshToken))])

/-- recharge_manager.py line 108: `isinstance(response, dict) and
(response.get("success") is True or "success" in msg_str)`. -/
def isSuccessResp (r : Json) : Bool :=
  match r with
  | .obj fs => (fs.lookup "success" == some (Json.bool true)) || containsSub "success" (lower (pyStr r))
  | _ => false

/-- recharge_manager.py lines 179-189: classification of the original
exception text after the (possible) auth-retry flow fell through: block/limit
markers or anything unrecognised continue with the next sender; a voucher
marker combined with invalid/used aborts. `t` is `str(e).lower()`, `effs` the
effects of this sender, `next` the outcome of the remaining rotation. -/
def exnDispatch (t : String) (effs : List Eff) (next : RResult × List Eff) : RResult × List Eff :=
  if containsSub "block" t || containsSub "limit" t || containsSub "too many" t then
    (next.1, effs ++ next.2)
  else if containsSub "voucher" t && (containsSub "invalid" t || containsSub "used" t) then
    (.voucherInvalidExn, effs)
  else (next.1, effs ++ next.2)

/-- recharge_manager.py lines 116-144: after the settling sleep, re-probe the
receiver balance and compare with the initial one; a positive delta is the
success message (delta, previous and new balance, receiver, sender, voucher),
anything else the unconfirmed message (terminal). -/
def verifyStep (env : Env) (init : ℚ) (k : Nat) (targetPhone senderPhone voucher : String) :
    RResult :=
  match getBalanceSafe (env.balance k) with
  | some v => if qpos (qsub v init) then .success (qsub v init) init v targetPhone senderPhone voucher
              else .unconfirmed init
  | none => .unconfirmed init

/-- The sender rotation loop of `process_smart_recharge` (recharge_manager.py
lines 90-191).  `k` is the next balance-probe index, `tried` the senders
attempted so far; returns the structured result and the ordered effects. -/
def rotate (env : Env) (voucher targetPhone targetTok : String) (init : ℚ) :
    Nat → List String → List Account → RResult × List Eff
  | _, tried, [] => (.allFailed tried, [])
  | k, tried, s :: rest =>
    let tried1 := tried ++ [s.phone]
    match env.submit s.phone 0 with
    | .ok r =>
      let m := lower (pyStr r)
      if isSuccessResp r then
        (verifyStep env init k targetPhone s.phone voucher,
         [.submitCall s.phone 0 s.accessToken, .sleep 3, .balanceCall k targetTok])
      else if containsSub "invalid" m || containsSub "used" m || containsSub "not found" m then
        (.voucherInvalidResp, [.submitCall s.phone 0 s.accessToken])
      else if containsSub "block" m || containsSub "limit" m then
        let n := rotate env voucher targetPhone targetTok init k tried1 rest
        (n.1, .submitCall s.phone 0 s.accessToken :: n.2)
      else
        (verifyStep env init k targetPhone s.phone voucher,
         [.submitCall s.phone 0 s.accessToken, .sleep 3, .balanceCall k targetTok])
    | .error e =>
      let t := lower e.text
      if e.status == some 401 || e.status == some 403 then
        match refreshAndUpdate env s with
        | (some nt, reffs) =>
          match env.submit s.phone 1 with
          | .ok _ =>
            let pre := .submitCall s.phone 0 s.accessToken ::
              reffs ++ [.submitCall s.phone 1 nt, .sleep 3, .balanceCall k targetTok]
            match getBalanceSafe (env.balance k) with
            | some v =>
              if qpos (qsub v init) then (.successAfterRefresh (qsub v init) v, pre)
              else exnDispatch t pre (rotate env voucher targetPhone targetTok init (k + 1) tried1 rest)
            | none =>
              exnDispatch t pre (rotate env voucher targetPhone targetTok init (k + 1) tried1 rest)
          | .error _ =>
            exnDispatch t (.submitCall s.phone 0 s.accessToken :: reffs ++ [.submitCall s.phone 1 nt])
              (rotate env voucher targetPhone targetTok init k tried1 rest)
        | (none, reffs) =>
          exnDispatch t (.submitCall s.phone 0 s.accessToken :: reffs)
            (rotate env voucher targetPhone targetTok init k tried1 rest)
      else
        exnDispatch t [.submitCall s.phone 0 s.accessToken]
          (rotate env voucher targetPhone targetTok init k tried1 rest)

/-- Lines 70-191 of recharge_manager.py: fetch the initial receiver
balance (with one reactive refresh of the receiver on failure), abort with
the receiver-unreachable result when it stays unknown, otherwise run the
sender rotation. -/
def initialPhase (env : Env) (voucher : String) (target : Account) (senders : List Account) :
    RResult × List Eff :=
  match getBalanceSafe (env.balance 0) with
  | some b =>
    let r := rotate env voucher target.phone target.accessToken b 1 [] senders
    (r.1, .balanceCall 0 target.accessToken :: r.2)
  | none =>
    match refreshAndUpdate env target with
    | (some nt, reffs) =>
      match getBalanceSafe (env.balance 1) with
      | some b =>
        let r := rotate env voucher target.phone nt b 2 [] senders
        (r.1, .balanceCall 0 target.accessToken :: reffs ++ [.balanceCall 1 nt] ++ r.2)
      | none =>
        (.receiverUnreachable target.phone,
         .balanceCall 0 target.accessToken :: reffs ++ [.balanceCall 1 nt])
    | (none, reffs) =>
      (.receiverUnreachable target.phone, .balanceCall 0 target.accessToken :: reffs)

/-- `RechargeManager.process_smart_recharge` (recharge_manager.py lines
47-191): receiver/sender selection with the self-recharge fallback, the two
early exits, then the initial-balance phase and the sender rotation. -/
def processSmartRecharge (env : Env) (accounts : List Account) (voucher : String) :
    RResult × List Eff :=
  let target? := accounts.find? (·.isPrimaryReceiver)
  let senders0 := accounts.filter (fun a => !a.isPrimaryReceiver)
  let senders := if senders0.isEmpty && target?.isSome then target?.toList else senders0
  match target? with
  | none => (.noReceiver, [])
  | some target =>
    if senders.isEmpty then (.noAccounts, [])
    else initialPhase env voucher target senders

/-- One account of `SchedulerService.refresh_all_tokens` (scheduler.py lines
27-49): on a truthy access token it persists the response pair verbatim
(passing `token_response.refresh_token` through unchanged, even when absent);
otherwise it notifies the owning user. -/
def refreshAllTokensStep (env : Env) (acc : Account) : List Eff :=
  match env.refresh acc.phone with
  | .error _ =>
    [.refreshCall acc.phone,
     .notify acc.userId ("Error refreshing session for " ++ acc.phone ++ ". Please login again.")]
  | .ok tr =>
    match tr.accessToken with
    | none =>
      [.refreshCall acc.phone,
       .notify acc.userId ("Session expired for " ++ acc.phone ++ ". Please login again.")]
    | some a =>
      if a = "" then
        [.refreshCall acc.phone,
         .notify acc.userId ("Session expired for " ++ acc.phone ++ ". Please login again.")]
      else [.refreshCall acc.phone, .updateTokens acc.phone a tr.refreshToken]

/-- `SchedulerService.refresh_all_tokens` over all stored accounts; failures
are isolated per account, so the effects concatenate. -/
def refreshAllTokens (env : Env) (accounts : List Account) : List Eff :=
  accounts.flatMap (refreshAllTokensStep env)

/-- First UPDATE of `DBManager.set_primary_receiver` (db_manager.py lines
243-246): clear the flag on every account of the user. -/
def clearPrimary (uid : Int) (a : Account) : Account :=
  if a.userId = uid then { a with isPrimaryReceiver := false } else a

/-- Second UPDATE of `DBManager.set_primary_receiver` (db_manager.py lines
249-252): set the flag where both user id and phone match. -/
def setIfMatch (uid : Int) (phone : String) (a : Account) : Account :=
  if a.userId = uid ∧ a.phone = phone then { a with isPrimaryReceiver := true } else a

/-- `DBManager.set_primary_receiver` (db_manager.py lines 239-254): the two
sequential UPDATE statements over the accounts table. -/
def setPrimaryReceiver (db : List Account) (uid : Int) (phone : String) : List Account :=
  (db.map (clearPrimary uid)).map (setIfMatch uid phone)

/-- The normalized response dict `AsiacellClient._request` returns (client.py
lines 102-107). -/
structure NormResp where
  status : Nat
  reason : String
  headers : List (String × String)
  cookies : List (String × String)
  body : Json
deriving Repr, BEq

/-- What one attempt of the gateway loop observes: an HTTP response (any
status), a transport-level `aiohttp.ClientError`/`asyncio.TimeoutError`, or
any other exception. -/
inductive AttemptOutcome where
  | response (resp : NormResp)
  | clientError (e : ExnInfo)
  | otherError (e : ExnInfo)

/-- The `aiohttp.ClientResponseError` that `raise_for_status()` raises for a
status >= 400: it carries the status attribute, and it is a subclass of
`aiohttp.ClientError`. -/
def httpExn (resp : NormResp) : ExnInfo :=
  ⟨some resp.status, toString resp.status ++ ", message=" ++ quoteChar ++ resp.reason ++ quoteChar⟩

/-- The attempt loop of `AsiacellClient._request` (client.py lines 87-129):
`oracle n` is what attempt `n` observes.  A response with status >= 400 makes
`raise_for_status` raise a `ClientResponseError`, which the
`except (aiohttp.ClientError, asyncio.TimeoutError)` arm catches exactly like
a transport failure: retried while attempts remain, re-raised on the last
one.  Only exceptions outside that tuple propagate immediately. -/
def requestAux (oracle : Nat → AttemptOutcome) : Nat → Nat → Except ExnInfo NormResp
  | attempt, remaining =>
    match oracle attempt with
    | .response resp =>
      if 400 ≤ resp.status then
        match remaining with
        | 0 => .error (httpExn resp)
        | r + 1 => requestAux oracle (attempt + 1) r
      else .ok resp
    | .clientError e =>
      match remaining with
      | 0 => .error e
      | r + 1 => requestAux oracle (attempt + 1) r
    | .otherError e => .error e

/-- `AsiacellClient._request` with its fixed `retries = 2` (3 attempts). -/
def request (oracle : Nat → AttemptOutcome) : Except ExnInfo NormResp :=
  requestAux oracle 0 2

/-- `urllib.parse.urlsplit` fragment: everything after the first `#`. -/
def urlFragment (u : List Char) : List Char := ((splitFirst '#' u).2).getD []

/-- The part of the URL before any fragment. -/
def urlPreFragment (u : List Char) : List Char := (splitFirst '#' u).1

/-- `urllib.parse.urlsplit` query: after the first `?` of the pre-fragment
part. -/
def urlQuery (u : List Char) : List Char := ((splitFirst '?' (urlPreFragment u)).2).getD []

/-- `urllib.parse.parse_qs` on the modelled subset (no percent-escapes in the
carrier PIDs): split on `&`, keep `name=value` fields with a non-empty value
(parse_qs drops blank values by default). -/
def parseQs (qs : List Char) : List (String × String) :=
  (splitAll '&' qs).filterMap fun field =>
    match splitFirst '=' field with
    | (_, none) => none
    | (name, some val) => if val.isEmpty then none else some (⟨name⟩, ⟨val⟩)

/-- The PID extraction of `phone_handler` (handlers.py lines 396-405):
`parse_qs(query).get("PID", [None])[0]`, and when that is missing and a
fragment exists, the same lookup on the query segment after the first `?`
inside the fragment. -/
def extractPid (nextUrl : String) : Option String :=
  let u := nextUrl.data
  match (parseQs (urlQuery u)).lookup "PID" with
  | some p => some p
  | none =>
    let frag := urlFragment u
    if frag.isEmpty then none
    else
      match splitFirst '?' frag with
      | (_, some fq) => (parseQs fq).lookup "PID"
      | (_, none) => none

/-! Concrete instances used by the verification scenarios below. -/

/-- A home/balance payload whose `watch.information.mainBalance` is `s`. -/
def balBody (s : String) : Json :=
  .obj [("watch", .obj [("information", .obj [("mainBalance", .str s)])])]

/-- Receiver account of the concrete scenarios. -/
def recvA : Account := ⟨"0770000001", 1, "dev0", "ck0", "atR", "rtR", true⟩

/-- First sender account of the concrete scenarios. -/
def senderA : Account := ⟨"0770000002", 1, "dev1", "ck1", "atA", "rtA", false⟩

/-- Second sender account of the concrete scenarios. -/
def senderB : Account := ⟨"0770000003", 1, "dev2", "ck2", "atB", "rtB", false⟩

/-- Scenario: submit acknowledges with a bare "ok" (ambiguous), receiver
balance 1000 before and 1500 after. -/
def envAmbiguous : Env where
  submit := fun _ _ => .ok (.str "ok")
  balance := fun k => if k = 0 then .ok (balBody "1,000 IQD") else .ok (balBody "1,500 IQD")
  refresh := fun _ => .error ⟨none, "refresh unavailable"⟩

/-- Scenario: sender submit raises 403, reactive refresh succeeds, the retry
is acknowledged and the receiver balance moves 1000 to 1500. -/
def envAuthRetry : Env where
  submit := fun _ attempt =>
    if attempt = 0 then .error ⟨some 403, "Forbidden"⟩ else .ok (.str "ok")
  balance := fun k => if k = 0 then .ok (balBody "1,000 IQD") else .ok (balBody "1,500 IQD")
  refresh := fun _ => .ok ⟨some "atNew", some "rtNew", none⟩

/-- Scenario: sender submit raises a 403 whose text carries voucher markers
and the reactive refresh fails. -/
def envAuthVoucherText : Env where
  submit := fun _ _ => .error ⟨some 403, "voucher used"⟩
  balance := fun _ => .ok (balBody "1,000 IQD")
  refresh := fun _ => .error ⟨none, "refresh unavailable"⟩

/-- Scenario: every submit raises a non-auth error whose text says the
voucher was not found. -/
def envVoucherNotFound : Env where
  submit := fun _ _ => .error ⟨none, "voucher not found"⟩
  balance := fun _ => .ok (balBody "1,000 IQD")
  refresh := fun _ => .error ⟨none, "refresh unavailable"⟩

/-- Scenario: every submit is answered 200 with a body saying the voucher was
already used. -/
def envVoucherUsedResp : Env where
  submit := fun _ _ => .ok (.str "voucher used already")
  balance := fun _ => .ok (balBody "1,000 IQD")
  refresh := fun _ => .error ⟨none, "refresh unavailable"⟩

/-- Scenario: the token exchange succeeds but the response omits the refresh
token. -/
def envRefreshOmitted : Env where
  submit := fun _ _ => .error ⟨none, "unused"⟩
  balance := fun _ => .error ⟨none, "unused"⟩
  refresh := fun _ => .ok ⟨some "atNew", none, none⟩

/-- Gateway attempt oracle: first attempt yields an HTTP 500 response, later
attempts a 200 response. -/
def oracleHttp500 : Nat → AttemptOutcome := fun k =>
  if k = 0 then .response ⟨500, "Internal Server Error", [], [], .null⟩
  else .response ⟨200, "OK", [], [], .str "ok"⟩

/-- Two accounts of the same user, phoneA initially the primary receiver. -/
def dbTwoPhones : List Account :=
  [⟨"0770000001", 1, "d1", "c1", "a1", "r1", true⟩,
   ⟨"0770000002", 1, "d2", "c2", "a2", "r2", false⟩]

/-! ### General helper lemmas -/

theorem qsub_eq_sub (a b : ℚ) : qsub a b = a - b := by
  have ha : ((a.den : ℚ)) ≠ 0 := Nat.cast_ne_zero.mpr a.den_nz
  have hb : ((b.den : ℚ)) ≠ 0 := Nat.cast_ne_zero.mpr b.den_nz
  rw [qsub, Rat.mkRat_eq_div]
  conv_rhs => rw [← Rat.num_div_den a, ← Rat.num_div_den b]
  rw [div_sub_div _ _ ha hb]
  push_cast
  ring_nf

theorem qpos_iff (a : ℚ) : qpos a = true ↔ 0 < a := by
  simp [qpos, Rat.num_pos]

theorem verifyStep_ne_noAccounts (env : Env) (init : ℚ) (k : Nat) (tp sp v : String) :
    verifyStep env init k tp sp v ≠ RResult.noAccounts := by
  unfold verifyStep
  split
  · split <;> simp
  · simp

theorem exnDispatch_fst_cases (t : String) (effs : List Eff) (next : RResult × List Eff) :
    (exnDispatch t effs next).1 = next.1 ∨ (exnDispatch t effs next).1 = .voucherInvalidExn := by
  unfold exnDispatch
  split_ifs <;> simp

theorem exnDispatch_fst_ne (t : String) (effs : List Eff) (next : RResult × List Eff)
    (h : next.1 ≠ RResult.noAccounts) :
    (exnDispatch t effs next).1 ≠ RResult.noAccounts := by
  rcases exnDispatch_fst_cases t effs next with hh | hh <;> rw [hh]
  · exact h
  · simp

theorem rotate_fst_ne_noAccounts (env : Env) (voucher tp tt : String) (init : ℚ) :
    ∀ (senders : List Account) (k : Nat) (tried : List String),
      (rotate env voucher tp tt init k tried senders).1 ≠ RResult.noAccounts := by
  intro senders
  induction senders with
  | nil => intro k tried; simp [rotate]
  | cons s rest ih =>
    intro k tried
    simp only [rotate]
    cases hs : env.submit s.phone 0 with
    | ok r =>
      dsimp only
      split_ifs with h1 h2 h3
      · apply verifyStep_ne_noAccounts
      · simp
      · exact ih _ _
      · apply verifyStep_ne_noAccounts
    | error e =>
      dsimp only
      split_ifs with h1
      · cases hra : refreshAndUpdate env s with
        | mk o reffs =>
          cases o with
          | some nt =>
            dsimp only
            cases hs1 : env.submit s.phone 1 with
            | ok r2 =>
              dsimp only
              cases hb : getBalanceSafe (env.balance k) with
              | some v =>
                dsimp only
                split_ifs with h2
                · simp
                · exact exnDispatch_fst_ne _ _ _ (ih _ _)
              | none =>
                dsimp only
                exact exnDispatch_fst_ne _ _ _ (ih _ _)
            | error e2 =>
              dsimp only
              exact exnDispatch_fst_ne _ _ _ (ih _ _)
          | none =>
            dsimp only
            exact exnDispatch_fst_ne _ _ _ (ih _ _)
      · exact exnDispatch_fst_ne _ _ _ (ih _ _)

theorem initialPhase_fst_ne_noAccounts (env : Env) (voucher : String) (target : Account)
    (senders : List Account) :
    (initialPhase env voucher target senders).1 ≠ RResult.noAccounts := by
  unfold initialPhase
  cases hb0 : getBalanceSafe (env.balance 0) with
  | some b => dsimp only; apply rotate_fst_ne_noAccounts
  | none =>
    dsimp only
    cases hra : refreshAndUpdate env target with
    | mk o reffs =>
      cases o with
      | some nt =>
        dsimp only
        cases hb1 : getBalanceSafe (env.balance 1) with
        | some b => dsimp only; apply rotate_fst_ne_noAccounts
        | none => simp
      | none => simp

theorem strData_append (s t : String) : (s ++ t).data = s.data ++ t.data := rfl

theorem splitFirst_of_not_mem (c : Char) (l : List Char) (h : c ∉ l) :
    splitFirst c l = (l, none) := by
  induction l with
  | nil => rfl
  | cons x xs ih =>
    have hx : x ≠ c := fun he => h (he ▸ List.mem_cons_self x xs)
    have hxs : c ∉ xs := fun hm => h (List.mem_cons_of_mem _ hm)
    simp [splitFirst, hx, ih hxs]

theorem splitFirst_append (c : Char) (l1 l2 : List Char) (h : c ∉ l1) :
    splitFirst c (l1 ++ c :: l2) = (l1, some l2) := by
  induction l1 with
  | nil => simp [splitFirst]
  | cons x xs ih =>
    have hx : x ≠ c := fun he => h (he ▸ List.mem_cons_self x xs)
    have hxs : c ∉ xs := fun hm => h (List.mem_cons_of_mem _ hm)
    simp [splitFirst, hx, ih hxs]

theorem splitAll_of_not_mem (c : Char) (l : List Char) (h : c ∉ l) : splitAll c l = [l] := by
  induction l with
  | nil => rfl
  | cons x xs ih =>
    have hx : x ≠ c := fun he => h (he ▸ List.mem_cons_self x xs)
    have hxs : c ∉ xs := fun hm => h (List.mem_cons_of_mem _ hm)
    simp [splitAll, hx, ih hxs]

theorem setPrimaryReceiver_eq_map (db : List Account) (uid : Int) (phone : String) :
    setPrimaryReceiver db uid phone =
      db.map (fun a => setIfMatch uid phone (clearPrimary uid a)) := by
  simp [setPrimaryReceiver, List.map_map, Function.comp]

theorem setStep_userId (uid : Int) (phone : String) (a : Account) :
    (setIfMatch uid phone (clearPrimary uid a)).userId = a.userId := by
  unfold clearPrimary setIfMatch
  split_ifs <;> rfl

theorem setStep_phone (uid : Int) (phone : String) (a : Account) :
    (setIfMatch uid phone (clearPrimary uid a)).phone = a.phone := by
  unfold clearPrimary setIfMatch
  split_ifs <;> rfl

theorem setStep_primary (uid : Int) (phone : String) (a : Account) :
    (setIfMatch uid phone (clearPrimary uid a)).isPrimaryReceiver =
      if a.userId = uid then decide (a.phone = phone) else a.isPrimaryReceiver := by
  unfold clearPrimary setIfMatch
  by_cases h1 : a.userId = uid
  · by_cases h2 : a.phone = phone
    · simp [h1, h2]
    · simp [h1, h2]
  · simp [h1]

/-! ### Claim theorems -/

/-- C10 counterexample: a body whose `watch.information.mainBalance` is
present and parses (the JSON number `0`, whose text form `"0"` is a valid
float) still yields `none`, because the code guards the parse with a Python
truthiness test on the raw value. -/
theorem c10_counterexample :
    getBalanceSafe
        (.ok (.obj [("watch", .obj [("information", .obj [("mainBalance", .num 0)])])])) = none
  ∧ pyFloat? (cleanBalance (pyStr (Json.num 0))) = some 0 := by
  constructor
  · rfl
  · decide

/-- C10 (amended): `_get_balance_safe` is total — it returns `none` on a
raised call, on a non-dict body, and whenever the
`watch.information.mainBalance` chain is broken; and it returns a numeric
balance exactly when the body is a dict whose chain is present with a truthy
value whose text, after stripping " IQD" and commas, parses as a float. -/
theorem c10_balance_probe_total :
    (∀ e, getBalanceSafe (.error e) = none)
  ∧ (∀ b, isDict b = false → getBalanceSafe (.ok b) = none)
  ∧ (∀ o q, getBalanceSafe o = some q ↔
      ∃ fs ws infos raw, o = .ok (.obj fs) ∧ fs.lookup "watch" = some (.obj ws) ∧
        ws.lookup "information" = some (.obj infos) ∧ infos.lookup "mainBalance" = some raw ∧
        jtruthy raw = true ∧ pyFloat? (cleanBalance (pyStr raw)) = some q) := by
  refine ⟨fun e => rfl, ?_, ?_⟩
  · intro b hb
    cases b <;> simp_all [getBalanceSafe, isDict]
  · intro o q
    constructor
    · intro h
      cases o with
      | error e => simp [getBalanceSafe] at h
      | ok body =>
        cases body
        case obj fs =>
          cases hw : fs.lookup "watch" with
          | none => simp [getBalanceSafe, hw, dictOrRaise] at h
          | some w =>
            cases w
            case obj ws =>
              cases hi : ws.lookup "information" with
              | none => simp [getBalanceSafe, hw, hi, dictOrRaise] at h
              | some i =>
                cases i
                case obj infos =>
                  cases hm : infos.lookup "mainBalance" with
                  | none => simp [getBalanceSafe, hw, hi, hm, dictOrRaise] at h
                  | some raw =>
                    cases hjt : jtruthy raw with
                    | false => simp [getBalanceSafe, hw, hi, hm, dictOrRaise, hjt] at h
                    | true =>
                      have hp : pyFloat? (cleanBalance (pyStr raw)) = some q := by
                        simpa [getBalanceSafe, hw, hi, hm, dictOrRaise, hjt] using h
                      exact ⟨fs, ws, infos, raw, rfl, hw, hi, hm, hjt, hp⟩
                all_goals simp [getBalanceSafe, hw, hi, dictOrRaise] at h
            all_goals simp [getBalanceSafe, hw, dictOrRaise] at h
        all_goals simp [getBalanceSafe] at h
    · rintro ⟨fs, ws, infos, raw, rfl, hw, hi, hm, ht, hp⟩
      simp [getBalanceSafe, hw, hi, hm, dictOrRaise, ht, hp]

/-- C10 witness: the characterisation at a raised call, a non-dict body and a
well-formed balance payload. -/
theorem c10_balance_probe_total_witness :
    getBalanceSafe (.error ⟨none, "boom"⟩) = none
  ∧ getBalanceSafe (.ok (.str "maintenance")) = none
  ∧ getBalanceSafe (.ok (balBody "1,000 IQD")) = some 1000 := by
  refine ⟨c10_balance_probe_total.1 ⟨none, "boom"⟩,
    c10_balance_probe_total.2.1 (.str "maintenance") (by decide), ?_⟩
  exact (c10_balance_probe_total.2.2 (.ok (balBody "1,000 IQD")) 1000).mpr
    ⟨[("watch", .obj [("information", .obj [("mainBalance", .str "1,000 IQD")])])],
     [("information", .obj [("mainBalance", .str "1,000 IQD")])],
     [("mainBalance", .str "1,000 IQD")], .str "1,000 IQD",
     rfl, rfl, rfl, rfl, by decide, by decide⟩

/-- C6 counterexample: the 12-hour scheduled refresh job persists the
response refresh token verbatim; when the response omits it, the stored
refresh token is overwritten with the absent value instead of being kept. -/
theorem c6_counterexample :
    refreshAllTokensStep envRefreshOmitted ⟨"0770000009", 7, "d", "c", "atOld", "rtOld", false⟩ =
      [.refreshCall "0770000009", .updateTokens "0770000009" "atNew" none]
  ∧ (none : Option String) ≠ some "rtOld" := by
  constructor
  · rfl
  · decide

/-- C6 (amended): when a refresh exchange succeeds but the response omits or
blanks the refresh token, the reactive refresh of the orchestrator
(`_refresh_and_update`) persists the previous refresh token of the account, while
the scheduled job (`refresh_all_tokens`) persists the response value
verbatim, overwriting the stored one with the absent value. -/
theorem c6_refresh_token_retention (env : Env) (acc : Account) (tr : TokenResp) (a : String)
    (hr : env.refresh acc.phone = .ok tr) (ha : tr.accessToken = some a) (hne : a ≠ "")
    (hmiss : tr.refreshToken = none ∨ tr.refreshToken = some "") :
    refreshAndUpdate env acc =
      (some a, [.refreshCall acc.phone, .updateTokens acc.phone a (some acc.refreshToken)])
  ∧ refreshAllTokensStep env acc =
      [.refreshCall acc.phone, .updateTokens acc.phone a tr.refreshToken] := by
  have hfb : refreshFallback tr.refreshToken acc.refreshToken = acc.refreshToken := by
    rcases hmiss with h | h <;> simp [refreshFallback, h]
  constructor
  · simp [refreshAndUpdate, hr, ha, hne, hfb]
  · simp [refreshAllTokensStep, hr, ha, hne]

/-- C6 witness: the amended statement at a concrete account and environment. -/
theorem c6_refresh_token_retention_witness :
    refreshAndUpdate envRefreshOmitted senderA =
      (some "atNew", [.refreshCall "0770000002", .updateTokens "0770000002" "atNew" (some "rtA")])
  ∧ refreshAllTokensStep envRefreshOmitted senderA =
      [.refreshCall "0770000002", .updateTokens "0770000002" "atNew" none] :=
  c6_refresh_token_retention envRefreshOmitted senderA ⟨some "atNew", none, none⟩ "atNew"
    rfl rfl (by decide) (Or.inl rfl)

/-- C5 counterexample: with zero stored accounts `process_smart_recharge`
returns the "no receiver configured" result, not the distinct "no accounts"
result the claim requires. -/
theorem c5_counterexample :
    processSmartRecharge envAmbiguous [] "12345678901234" = (.noReceiver, [])
  ∧ RResult.noReceiver ≠ RResult.noAccounts := by
  constructor
  · rfl
  · decide

/-- C5 (amended): for every user with zero stored accounts the flow returns
the "no receiver configured" result and performs no effects (the result does
not depend on the oracle at all); the distinct "no accounts" result is dead
code — no invocation returns it, because whenever a primary receiver exists
the self-recharge fallback makes the sender list non-empty. -/
theorem c5_empty_accounts (env : Env) (voucher : String) :
    processSmartRecharge env [] voucher = (.noReceiver, [])
  ∧ ∀ accounts, (processSmartRecharge env accounts voucher).1 ≠ RResult.noAccounts := by
  constructor
  · rfl
  · intro accounts
    unfold processSmartRecharge
    cases ht : accounts.find? (·.isPrimaryReceiver) with
    | none => simp
    | some target =>
      dsimp only
      cases hfe : (accounts.filter (fun a => !a.isPrimaryReceiver)).isEmpty with
      | true =>
        simp only [hfe, Option.isSome_some, Bool.and_self, if_true, Option.toList_some]
        apply initialPhase_fst_ne_noAccounts
      | false =>
        simp only [hfe, Bool.false_and, Bool.and_self, if_false]
        rw [if_neg (by simp [hfe])]
        apply initialPhase_fst_ne_noAccounts

/-- C5 witness: the amended statement at a concrete environment. -/
theorem c5_empty_accounts_witness :
    processSmartRecharge envAmbiguous [] "12345678901234" = (.noReceiver, [])
  ∧ (processSmartRecharge envAmbiguous [recvA] "12345678901234").1 ≠ RResult.noAccounts :=
  ⟨(c5_empty_accounts envAmbiguous "12345678901234").1,
   (c5_empty_accounts envAmbiguous "12345678901234").2 [recvA]⟩

/-- C2 counterexample: a non-2xx HTTP response does not raise immediately —
`raise_for_status` raises `aiohttp.ClientResponseError`, a subclass of
`aiohttp.ClientError`, so the retry arm catches it: after a 500 on the first
attempt the loop retries and returns the 200 of the second attempt. -/
theorem c2_counterexample :
    request oracleHttp500 = .ok ⟨200, "OK", [], [], .str "ok"⟩
  ∧ ∀ e, request oracleHttp500 ≠ .error e := by
  constructor
  · rfl
  · intro e h
    rw [show request oracleHttp500 = .ok ⟨200, "OK", [], [], .str "ok"⟩ from rfl] at h
    exact Except.noConfusion h

/-- C2 (amended): the gateway loop makes up to 3 attempts; transport-level
failures AND non-2xx HTTP responses (status >= 400, whose
`ClientResponseError` is a `ClientError` subclass) are both retried, the last
error being re-raised on exhaustion (the HTTP one carrying its status); only
exceptions outside the `(ClientError, TimeoutError)` tuple propagate
immediately. -/
theorem c2_retry_policy (oracle : Nat → AttemptOutcome) :
    (∀ e0 e1 resp, oracle 0 = .clientError e0 → oracle 1 = .clientError e1 →
       oracle 2 = .response resp → resp.status < 400 → request oracle = .ok resp)
  ∧ (∀ e0 e1 e2, oracle 0 = .clientError e0 → oracle 1 = .clientError e1 →
       oracle 2 = .clientError e2 → request oracle = .error e2)
  ∧ (∀ resp0 resp1, oracle 0 = .response resp0 → 400 ≤ resp0.status →
       oracle 1 = .response resp1 → resp1.status < 400 → request oracle = .ok resp1)
  ∧ (∀ resp0 resp1 resp2, oracle 0 = .response resp0 → 400 ≤ resp0.status →
       oracle 1 = .response resp1 → 400 ≤ resp1.status →
       oracle 2 = .response resp2 → 400 ≤ resp2.status →
       request oracle = .error (httpExn resp2))
  ∧ (∀ e, oracle 0 = .otherError e → request oracle = .error e) := by
  refine ⟨?_, ?_, ?_, ?_, ?_⟩
  · intro e0 e1 resp h0 h1 h2 hlt
    have : ¬ 400 ≤ resp.status := not_le.mpr hlt
    simp [request, requestAux, h0, h1, h2, this]
  · intro e0 e1 e2 h0 h1 h2
    simp [request, requestAux, h0, h1, h2]
  · intro resp0 resp1 h0 h400 h1 hlt
    have : ¬ 400 ≤ resp1.status := not_le.mpr hlt
    simp [request, requestAux, h0, h1, h400, this]
  · intro resp0 resp1 resp2 h0 h400a h1 h400b h2 h400c
    simp [request, requestAux, h0, h1, h2, h400a, h400b, h400c]
  · intro e h0
    simp [request, requestAux, h0]

/-- C1: on an ambiguous/ack-only submit response (no success, voucher or
rate-limit markers) the flow sleeps the fixed 3-unit settling delay, re-probes
the receiver balance, and terminates this invocation: a positive delta yields
the success result carrying the delta, previous and new balance, receiver and
sender numbers and the voucher code; otherwise the unconfirmed result carrying
the previous balance.  The outcome does not depend on the remaining senders. -/
theorem c1_ambiguous_wait_and_verify (env : Env) (voucher targetPhone targetTok : String)
    (init : ℚ) (k : Nat) (tried : List String) (s : Account) (rest : List Account) (r : Json)
    (hsub : env.submit s.phone 0 = .ok r)
    (hnsucc : isSuccessResp r = false)
    (hninv : containsSub "invalid" (lower (pyStr r)) = false)
    (hnused : containsSub "used" (lower (pyStr r)) = false)
    (hnnf : containsSub "not found" (lower (pyStr r)) = false)
    (hnblock : containsSub "block" (lower (pyStr r)) = false)
    (hnlimit : containsSub "limit" (lower (pyStr r)) = false) :
    rotate env voucher targetPhone targetTok init k tried (s :: rest) =
      (verifyStep env init k targetPhone s.phone voucher,
       [.submitCall s.phone 0 s.accessToken, .sleep 3, .balanceCall k targetTok])
  ∧ (∀ v : ℚ, getBalanceSafe (env.balance k) = some v → init < v →
      verifyStep env init k targetPhone s.phone voucher =
        .success (v - init) init v targetPhone s.phone voucher)
  ∧ (∀ v : ℚ, getBalanceSafe (env.balance k) = some v → ¬ init < v →
      verifyStep env init k targetPhone s.phone voucher = .unconfirmed init)
  ∧ (getBalanceSafe (env.balance k) = none →
      verifyStep env init k targetPhone s.phone voucher = .unconfirmed init) := by
  refine ⟨?_, ?_, ?_, ?_⟩
  · simp [rotate, hsub, hnsucc, hninv, hnused, hnnf, hnblock, hnlimit]
  · intro v hv hpos
    unfold verifyStep
    rw [hv]
    dsimp only
    rw [qsub_eq_sub, if_pos ((qpos_iff _).mpr (sub_pos.mpr hpos))]
  · intro v hv hneg
    unfold verifyStep
    rw [hv]
    dsimp only
    rw [qsub_eq_sub, if_neg (fun hc => hneg (sub_pos.mp ((qpos_iff _).mp hc)))]
  · intro hnone
    unfold verifyStep
    rw [hnone]

/-- C1 witness: the spec scenario — balance 1000 before, ambiguous ack, 1500
after the settling delay — yields the success result with delta 500 and the
correct receiver, sender and voucher. -/
theorem c1_ambiguous_wait_and_verify_witness :
    rotate envAmbiguous "12345678901234" "0770000001" "atR" 1000 1 [] [senderA] =
      (verifyStep envAmbiguous 1000 1 "0770000001" "0770000002" "12345678901234",
       [.submitCall "0770000002" 0 "atA", .sleep 3, .balanceCall 1 "atR"])
  ∧ verifyStep envAmbiguous 1000 1 "0770000001" "0770000002" "12345678901234" =
      .success ((1500 : ℚ) - 1000) 1000 1500 "0770000001" "0770000002" "12345678901234" := by
  have h := c1_ambiguous_wait_and_verify envAmbiguous "12345678901234" "0770000001" "atR"
    1000 1 [] senderA [] (.str "ok") rfl (by decide) (by decide) (by decide) (by decide)
    (by decide) (by decide)
  exact ⟨h.1, h.2.1 1500 (by decide) (by decide)⟩

/-- C3 counterexample: a 403 whose exception text itself carries voucher
markers, followed by a failed refresh, aborts the whole operation with the
voucher-invalid result instead of moving to the next sender — the second
sender is never attempted. -/
theorem c3_counterexample :
    processSmartRecharge envAuthVoucherText [recvA, senderA, senderB] "12345678901234" =
      (.voucherInvalidExn,
       [.balanceCall 0 "atR", .submitCall "0770000002" 0 "atA", .refreshCall "0770000002"])
  ∧ ((processSmartRecharge envAuthVoucherText [recvA, senderA, senderB] "12345678901234").2.all
      (fun e => match e with
        | .submitCall p _ _ => p != "0770000003"
        | _ => true)) = true := by
  constructor
  · rfl
  · decide

/-- C3 (amended): on a 401/403 submit failure the sender token is refreshed
and persisted exactly once and the submit retried exactly once with the new
token; a positive post-retry delta is the refreshed-success result.  When the
refresh fails, the retry fails, or no positive delta appears, the flow
re-classifies the ORIGINAL exception text: with no rate-limit or voucher
markers there (the usual case) it moves to the next sender, never refreshing
the sender token a second time — but a 403 text carrying voucher markers
aborts instead (see the counterexample). -/
theorem c3_auth_retry (env : Env) (voucher targetPhone targetTok : String)
    (init : ℚ) (k : Nat) (tried : List String) (s : Account) (rest : List Account) (e : ExnInfo)
    (hsub : env.submit s.phone 0 = .error e)
    (hauth : (e.status == some 401 || e.status == some 403) = true)
    (hnb : containsSub "block" (lower e.text) = false)
    (hnl : containsSub "limit" (lower e.text) = false)
    (hnm : containsSub "too many" (lower e.text) = false)
    (hnv : (containsSub "voucher" (lower e.text) &&
            (containsSub "invalid" (lower e.text) || containsSub "used" (lower e.text))) = false) :
    (∀ tr nt r2 (v : ℚ), env.refresh s.phone = .ok tr → tr.accessToken = some nt → nt ≠ "" →
       env.submit s.phone 1 = .ok r2 → getBalanceSafe (env.balance k) = some v → init < v →
       rotate env voucher targetPhone targetTok init k tried (s :: rest) =
         (.successAfterRefresh (v - init) v,
          [.submitCall s.phone 0 s.accessToken, .refreshCall s.phone,
           .updateTokens s.phone nt (some (refreshFallback tr.refreshToken s.refreshToken)),
           .submitCall s.phone 1 nt, .sleep 3, .balanceCall k targetTok]))
  ∧ (∀ tr nt e2, env.refresh s.phone = .ok tr → tr.accessToken = some nt → nt ≠ "" →
       env.submit s.phone 1 = .error e2 →
       rotate env voucher targetPhone targetTok init k tried (s :: rest) =
         ((rotate env voucher targetPhone targetTok init k (tried ++ [s.phone]) rest).1,
          [.submitCall s.phone 0 s.accessToken, .refreshCall s.phone,
           .updateTokens s.phone nt (some (refreshFallback tr.refreshToken s.refreshToken)),
           .submitCall s.phone 1 nt] ++
          (rotate env voucher targetPhone targetTok init k (tried ++ [s.phone]) rest).2))
  ∧ (∀ er, env.refresh s.phone = .error er →
       rotate env voucher targetPhone targetTok init k tried (s :: rest) =
         ((rotate env voucher targetPhone targetTok init k (tried ++ [s.phone]) rest).1,
          [.submitCall s.phone 0 s.accessToken, .refreshCall s.phone] ++
          (rotate env voucher targetPhone targetTok init k (tried ++ [s.phone]) rest).2))
  ∧ (∀ tr nt r2 (v : ℚ), env.refresh s.phone = .ok tr → tr.accessToken = some nt → nt ≠ "" →
       env.submit s.phone 1 = .ok r2 → getBalanceSafe (env.balance k) = some v → ¬ init < v →
       rotate env voucher targetPhone targetTok init k tried (s :: rest) =
         ((rotate env voucher targetPhone targetTok init (k + 1) (tried ++ [s.phone]) rest).1,
          [.submitCall s.phone 0 s.accessToken, .refreshCall s.phone,
           .updateTokens s.phone nt (some (refreshFallback tr.refreshToken s.refreshToken)),
           .submitCall s.phone 1 nt, .sleep 3, .balanceCall k targetTok] ++
          (rotate env voucher targetPhone targetTok init (k + 1) (tried ++ [s.phone]) rest).2)) := by
  refine ⟨?_, ?_, ?_, ?_⟩
  · intro tr nt r2 v hr ha hne hretry hv hpos
    have hru : refreshAndUpdate env s =
        (some nt, [.refreshCall s.phone,
          .updateTokens s.phone nt (some (refreshFallback tr.refreshToken s.refreshToken))]) := by
      simp [refreshAndUpdate, hr, ha, hne]
    simp [rotate, hsub, hauth, hru, hretry, hv, qsub_eq_sub,
      if_pos ((qpos_iff _).mpr (sub_pos.mpr hpos))]
  · intro tr nt e2 hr ha hne hretry
    have hru : refreshAndUpdate env s =
        (some nt, [.refreshCall s.phone,
          .updateTokens s.phone nt (some (refreshFallback tr.refreshToken s.refreshToken))]) := by
      simp [refreshAndUpdate, hr, ha, hne]
    simp [rotate, hsub, hauth, hru, hretry, exnDispatch, hnb, hnl, hnm, hnv]
  · intro er hr
    have hru : refreshAndUpdate env s = (none, [.refreshCall s.phone]) := by
      simp [refreshAndUpdate, hr]
    simp [rotate, hsub, hauth, hru, exnDispatch, hnb, hnl, hnm, hnv]
  · intro tr nt r2 v hr ha hne hretry hv hneg
    have hru : refreshAndUpdate env s =
        (some nt, [.refreshCall s.phone,
          .updateTokens s.phone nt (some (refreshFallback tr.refreshToken s.refreshToken))]) := by
      simp [refreshAndUpdate, hr, ha, hne]
    have hq : qpos (qsub v init) = false := by
      rw [qsub_eq_sub]
      exact Bool.eq_false_iff.mpr (fun hc => hneg (sub_pos.mp ((qpos_iff _).mp hc)))
    simp [rotate, hsub, hauth, hru, hretry, hv, hq, exnDispatch, hnb, hnl, hnm, hnv]

/-- C3 witness: the spec auth-retry scenario — 403, successful refresh,
acknowledged retry, delta 1000 to 1500 — gives the refreshed-success result
with exactly one token persistence, the retry carrying the new token. -/
theorem c3_auth_retry_witness :
    rotate envAuthRetry "12345678901234" "0770000001" "atR" 1000 1 [] [senderA] =
      (.successAfterRefresh ((1500 : ℚ) - 1000) 1500,
       [.submitCall "0770000002" 0 "atA", .refreshCall "0770000002",
        .updateTokens "0770000002" "atNew" (some "rtNew"),
        .submitCall "0770000002" 1 "atNew", .sleep 3, .balanceCall 1 "atR"]) := by
  have h := c3_auth_retry envAuthRetry "12345678901234" "0770000001" "atR" 1000 1 [] senderA []
    ⟨some 403, "Forbidden"⟩ rfl (by decide) (by decide) (by decide) (by decide) (by decide)
  exact h.1 ⟨some "atNew", some "rtNew", none⟩ "atNew" (.str "ok") 1500 rfl rfl (by decide)
    rfl (by decide) (by decide)

/-- C4 counterexample: an exception whose text says "voucher not found"
carries voucher-invalid/not-found markers, yet the operation does not abort —
the sender is skipped and the next sender is attempted (the exception-path
abort requires "voucher" with "invalid" or "used"). -/
theorem c4_counterexample :
    processSmartRecharge envVoucherNotFound [recvA, senderA, senderB] "12345678901234" =
      (.allFailed ["0770000002", "0770000003"],
       [.balanceCall 0 "atR", .submitCall "0770000002" 0 "atA",
        .submitCall "0770000003" 0 "atB"])
  ∧ RResult.allFailed ["0770000002", "0770000003"] ≠ RResult.voucherInvalidExn
  ∧ RResult.allFailed ["0770000002", "0770000003"] ≠ RResult.voucherInvalidResp
  ∧ ((processSmartRecharge envVoucherNotFound [recvA, senderA, senderB]
        "12345678901234").2.contains (Eff.submitCall "0770000003" 0 "atB")) = true := by
  refine ⟨rfl, by decide, by decide, by decide⟩

/-- C4 (amended): voucher markers in the immediate RESPONSE text (checked
after the success-marker test) abort the whole operation with the
voucher-invalid result, and rate-limit/blocked markers there skip to the next
sender without any verification probe; in the EXCEPTION text the abort fires
only for "voucher" together with "invalid" or "used" (not for "not found"),
and only when no block/limit/too-many marker is present (those are checked
first and skip the sender). -/
theorem c4_abort_and_skip_classification (env : Env) (voucher targetPhone targetTok : String)
    (init : ℚ) (k : Nat) (tried : List String) (s : Account) (rest : List Account) :
    (∀ r, env.submit s.phone 0 = .ok r → isSuccessResp r = false →
       (containsSub "invalid" (lower (pyStr r)) || containsSub "used" (lower (pyStr r)) ||
        containsSub "not found" (lower (pyStr r))) = true →
       rotate env voucher targetPhone targetTok init k tried (s :: rest) =
         (.voucherInvalidResp, [.submitCall s.phone 0 s.accessToken]))
  ∧ (∀ r, env.submit s.phone 0 = .ok r → isSuccessResp r = false →
       (containsSub "invalid" (lower (pyStr r)) || containsSub "used" (lower (pyStr r)) ||
        containsSub "not found" (lower (pyStr r))) = false →
       (containsSub "block" (lower (pyStr r)) || containsSub "limit" (lower (pyStr r))) = true →
       rotate env voucher targetPhone targetTok init k tried (s :: rest) =
         ((rotate env voucher targetPhone targetTok init k (tried ++ [s.phone]) rest).1,
          .submitCall s.phone 0 s.accessToken ::
            (rotate env voucher targetPhone targetTok init k (tried ++ [s.phone]) rest).2))
  ∧ (∀ e, env.submit s.phone 0 = .error e →
       (e.status == some 401 || e.status == some 403) = false →
       (containsSub "block" (lower e.text) || containsSub "limit" (lower e.text) ||
        containsSub "too many" (lower e.text)) = false →
       (containsSub "voucher" (lower e.text) &&
        (containsSub "invalid" (lower e.text) || containsSub "used" (lower e.text))) = true →
       rotate env voucher targetPhone targetTok init k tried (s :: rest) =
         (.voucherInvalidExn, [.submitCall s.phone 0 s.accessToken]))
  ∧ (∀ e, env.submit s.phone 0 = .error e →
       (e.status == some 401 || e.status == some 403) = false →
       (containsSub "voucher" (lower e.text) &&
        (containsSub "invalid" (lower e.text) || containsSub "used" (lower e.text))) = false →
       rotate env voucher targetPhone targetTok init k tried (s :: rest) =
         ((rotate env voucher targetPhone targetTok init k (tried ++ [s.phone]) rest).1,
          .submitCall s.phone 0 s.accessToken ::
            (rotate env voucher targetPhone targetTok init k (tried ++ [s.phone]) rest).2)) := by
  refine ⟨?_, ?_, ?_, ?_⟩
  · intro r hsub hnsucc hmark
    simp [rotate, hsub, hnsucc, hmark]
  · intro r hsub hnsucc hnmark hblock
    simp [rotate, hsub, hnsucc, hnmark, hblock]
  · intro e hsub hnauth hnblock hmark
    simp [rotate, hsub, hnauth, exnDispatch, hnblock, hmark]
  · intro e hsub hnauth hnmark
    by_cases hbl : (containsSub "block" (lower e.text) || containsSub "limit" (lower e.text) ||
        containsSub "too many" (lower e.text)) = true
    · simp [rotate, hsub, hnauth, exnDispatch, hbl]
    · simp [rotate, hsub, hnauth, exnDispatch, hbl, hnmark]

/-- C4 witness: a response whose text contains "used" aborts the operation
for this and any remaining senders. -/
theorem c4_abort_and_skip_classification_witness :
    rotate envVoucherUsedResp "12345678901234" "0770000001" "atR" 1000 1 [] [senderA, senderB] =
      (.voucherInvalidResp, [.submitCall "0770000002" 0 "atA"]) := by
  exact (c4_abort_and_skip_classification envVoucherUsedResp "12345678901234" "0770000001"
    "atR" 1000 1 [] senderA [senderB]).1 (.str "voucher used already") rfl (by decide) (by decide)

/-- C2 witness: the amended statement at concrete oracles. -/
theorem c2_retry_policy_witness :
    request oracleHttp500 = .ok ⟨200, "OK", [], [], .str "ok"⟩
  ∧ request (fun _ => .clientError ⟨none, "timeout"⟩) = .error ⟨none, "timeout"⟩ := by
  constructor
  · exact (c2_retry_policy oracleHttp500).2.2.1 ⟨500, "Internal Server Error", [], [], .null⟩
      ⟨200, "OK", [], [], .str "ok"⟩ rfl (by decide) rfl (by decide)
  · exact (c2_retry_policy (fun _ => .clientError ⟨none, "timeout"⟩)).2.1
      ⟨none, "timeout"⟩ ⟨none, "timeout"⟩ ⟨none, "timeout"⟩ rfl rfl rfl

/-- C7: with unique phone numbers and `phoneB` owned by the user,
`set_primary_receiver` leaves the user with `phoneB` as their one primary
receiver (any previous primary, such as phoneA, is cleared in the same
operation), and the primary count of every other user is untouched, so the
at-most-one invariant is preserved for everyone. -/
theorem c7_primary_receiver_invariant (db : List Account) (uid : Int) (phoneB : String)
    (hnodup : (db.map Account.phone).Nodup)
    (hown : ∃ acc ∈ db, acc.userId = uid ∧ acc.phone = phoneB) :
    (∀ a ∈ setPrimaryReceiver db uid phoneB, a.userId = uid →
        (a.isPrimaryReceiver = true ↔ a.phone = phoneB))
  ∧ (setPrimaryReceiver db uid phoneB).countP
      (fun a => decide (a.userId = uid) && a.isPrimaryReceiver) = 1
  ∧ ∀ u : Int, u ≠ uid →
      (setPrimaryReceiver db uid phoneB).countP
        (fun a => decide (a.userId = u) && a.isPrimaryReceiver) =
      db.countP (fun a => decide (a.userId = u) && a.isPrimaryReceiver) := by
  obtain ⟨acc, hmem, haccu, haccp⟩ := hown
  have hmap := setPrimaryReceiver_eq_map db uid phoneB
  refine ⟨?_, ?_, ?_⟩
  · intro a ha huid
    rw [hmap] at ha
    obtain ⟨b, hb, rfl⟩ := List.mem_map.mp ha
    rw [setStep_userId] at huid
    rw [setStep_primary, setStep_phone, if_pos huid]
    simp
  · rw [hmap, List.countP_map]
    have hc : db.countP
        ((fun a => decide (a.userId = uid) && a.isPrimaryReceiver) ∘
          (fun a => setIfMatch uid phoneB (clearPrimary uid a))) =
        db.countP (fun a => decide (a.userId = uid) && decide (a.phone = phoneB)) := by
      apply List.countP_congr
      intro x hx
      by_cases h1 : x.userId = uid
      · simp [Function.comp, setStep_userId, setStep_primary, h1]
      · simp [Function.comp, setStep_userId, setStep_primary, h1]
    rw [hc]
    apply Nat.le_antisymm
    · have hle1 : db.countP (fun a => decide (a.userId = uid) && decide (a.phone = phoneB)) ≤
          db.countP (fun a => a.phone == phoneB) := by
        apply List.countP_mono_left
        intro x hx hpx
        simp only [Bool.and_eq_true, decide_eq_true_eq] at hpx
        simp [hpx.2]
      have hle2 : db.countP (fun a => a.phone == phoneB) ≤ 1 := by
        have hcount := List.nodup_iff_count_le_one.mp hnodup phoneB
        rw [List.count_eq_countP, List.countP_map] at hcount
        exact hcount
      omega
    · have hpos : 0 < db.countP (fun a => decide (a.userId = uid) && decide (a.phone = phoneB)) :=
        List.countP_pos_iff.mpr ⟨acc, hmem, by simp [haccu, haccp]⟩
      omega
  · intro u hu
    rw [hmap, List.countP_map]
    apply List.countP_congr
    intro x hx
    by_cases h1 : x.userId = uid
    · have huu : uid ≠ u := fun he => hu he.symm
      simp [Function.comp, setStep_userId, setStep_primary, h1, huu]
    · simp [Function.comp, setStep_userId, setStep_primary, h1]

/-- C7 witness: two accounts of one user with phoneA primary; designating
phoneB leaves exactly phoneB primary. -/
theorem c7_primary_receiver_invariant_witness :
    (setPrimaryReceiver dbTwoPhones 1 "0770000002").countP
      (fun a => decide (a.userId = 1) && a.isPrimaryReceiver) = 1
  ∧ ∀ a ∈ setPrimaryReceiver dbTwoPhones 1 "0770000002", a.userId = 1 →
      (a.isPrimaryReceiver = true ↔ a.phone = "0770000002") := by
  have h := c7_primary_receiver_invariant dbTwoPhones 1 "0770000002" (by decide) (by decide)
  exact ⟨h.2.1, h.1⟩

/-- C9 (implicit): designating a phone the user does not own still clears the
previous primary and designates nothing, leaving the user with zero
primary-receiver accounts. -/
theorem c9_nonowned_phone_clears (db : List Account) (uid : Int) (phone : String)
    (hnot : ∀ a ∈ db, a.userId = uid → a.phone ≠ phone) :
    (∀ a ∈ setPrimaryReceiver db uid phone, a.userId = uid → a.isPrimaryReceiver = false)
  ∧ (setPrimaryReceiver db uid phone).countP
      (fun a => decide (a.userId = uid) && a.isPrimaryReceiver) = 0 := by
  have hmap := setPrimaryReceiver_eq_map db uid phone
  constructor
  · intro a ha huid
    rw [hmap] at ha
    obtain ⟨b, hb, rfl⟩ := List.mem_map.mp ha
    rw [setStep_userId] at huid
    rw [setStep_primary, if_pos huid]
    exact decide_eq_false (hnot b hb huid)
  · rw [hmap, List.countP_map]
    rw [List.countP_eq_zero]
    intro x hx
    by_cases h1 : x.userId = uid
    · simp [Function.comp, setStep_userId, setStep_primary, h1, hnot x hx h1]
    · simp [Function.comp, setStep_userId, setStep_primary, h1]

/-- C9 witness: setting a non-owned phone clears the primary of the user. -/
theorem c9_nonowned_phone_clears_witness :
    (∀ a ∈ setPrimaryReceiver dbTwoPhones 1 "0779999999", a.userId = 1 →
        a.isPrimaryReceiver = false)
  ∧ (setPrimaryReceiver dbTwoPhones 1 "0779999999").countP
      (fun a => decide (a.userId = 1) && a.isPrimaryReceiver) = 0 :=
  c9_nonowned_phone_clears dbTwoPhones 1 "0779999999"
    (by intro a ha h1; fin_cases ha <;> simp_all [dbTwoPhones])

/-- C8: for any PID value free of URL metacharacters, a `nextUrl` carrying
`PID` in its query string yields that value, and a fragment-only `nextUrl`
whose fragment carries its own `?PID=` query segment yields it too. -/
theorem c8_pid_extraction (p : String) (hne : p.data ≠ [])
    (hchars : ∀ c ∈ p.data, c ≠ '#' ∧ c ≠ '?' ∧ c ≠ '&' ∧ c ≠ '=') :
    extractPid ("https://x?PID=" ++ p) = some p
  ∧ extractPid ("https://x#/page?PID=" ++ p) = some p := by
  have hnh : '#' ∉ p.data := fun hm => (hchars _ hm).1 rfl
  have hnq : '?' ∉ p.data := fun hm => (hchars _ hm).2.1 rfl
  have hna : '&' ∉ p.data := fun hm => (hchars _ hm).2.2.1 rfl
  have hneq : '=' ∉ p.data := fun hm => (hchars _ hm).2.2.2 rfl
  have hvalne : p.data.isEmpty = false := by
    cases hd : p.data with
    | nil => exact absurd hd hne
    | cons a as => rfl
  have hsa : splitAll '&' ("PID=".data ++ p.data) = [("PID=".data ++ p.data)] := by
    apply splitAll_of_not_mem
    intro hm
    rcases List.mem_append.mp hm with h | h
    · exact absurd h (by decide)
    · exact hna h
  have hfield : splitFirst '=' ("PID=".data ++ p.data) = ("PID".data, some p.data) := by
    have he : "PID=".data ++ p.data = "PID".data ++ '=' :: p.data := rfl
    rw [he]
    apply splitFirst_append
    decide
  have hparse : parseQs ("PID=".data ++ p.data) = [("PID", p)] := by
    unfold parseQs
    rw [hsa]
    simp only [List.filterMap]
    rw [hfield]
    simp [hvalne]
  constructor
  · have h1 : ("https://x?PID=" ++ p).data =
        "https://x".data ++ '?' :: ("PID=".data ++ p.data) := rfl
    have hnofrag : splitFirst '#' ("https://x?PID=" ++ p).data =
        (("https://x?PID=" ++ p).data, none) := by
      apply splitFirst_of_not_mem
      rw [strData_append]
      intro hm
      rcases List.mem_append.mp hm with h | h
      · exact absurd h (by decide)
      · exact hnh h
    have hq : splitFirst '?' ("https://x?PID=" ++ p).data =
        ("https://x".data, some ("PID=".data ++ p.data)) := by
      rw [h1]
      apply splitFirst_append
      decide
    have hquery : urlQuery ("https://x?PID=" ++ p).data = "PID=".data ++ p.data := by
      unfold urlQuery urlPreFragment
      rw [hnofrag]
      dsimp only
      rw [hq]
      rfl
    simp only [extractPid]
    rw [hquery, hparse]
    simp [List.lookup]
  · have h2 : ("https://x#/page?PID=" ++ p).data =
        "https://x".data ++ '#' :: ("/page".data ++ '?' :: ("PID=".data ++ p.data)) := rfl
    have hfrag : splitFirst '#' ("https://x#/page?PID=" ++ p).data =
        ("https://x".data, some ("/page".data ++ '?' :: ("PID=".data ++ p.data))) := by
      rw [h2]
      apply splitFirst_append
      decide
    have hfsplit : splitFirst '?' ("/page".data ++ '?' :: ("PID=".data ++ p.data)) =
        ("/page".data, some ("PID=".data ++ p.data)) := by
      apply splitFirst_append
      decide
    have hquery2 : urlQuery ("https://x#/page?PID=" ++ p).data = [] := by
      unfold urlQuery urlPreFragment
      rw [hfrag]
      dsimp only
      rw [splitFirst_of_not_mem '?' "https://x".data (by decide)]
      rfl
    have hfragval : urlFragment ("https://x#/page?PID=" ++ p).data =
        "/page".data ++ '?' :: ("PID=".data ++ p.data) := by
      unfold urlFragment
      rw [hfrag]
      rfl
    simp only [extractPid]
    rw [hquery2]
    rw [show parseQs [] = [] from rfl]
    dsimp only [List.lookup]
    rw [hfragval]
    rw [show ("/page".data ++ '?' :: ("PID=".data ++ p.data)).isEmpty = false from rfl]
    dsimp only
    rw [hfsplit]
    dsimp only
    rw [hparse]
    simp [List.lookup]

/-- C8 witness: the spec examples — `?PID=abc123` extracts `abc123` and
`#/page?PID=xyz` extracts `xyz`. -/
theorem c8_pid_extraction_witness :
    extractPid "https://x?PID=abc123" = some "abc123"
  ∧ extractPid "https://x#/page?PID=xyz" = some "xyz" := by
  have h1 := c8_pid_extraction "abc123" (by decide) (by decide)
  have h2 := c8_pid_extraction "xyz" (by decide) (by decide)
  have e1 : ("https://x?PID=" ++ "abc123" : String) = "https://x?PID=abc123" := by decide
  have e2 : ("https://x#/page?PID=" ++ "xyz" : String) = "https://x#/page?PID=xyz" := by decide
  exact ⟨e1 ▸ h1.1, e2 ▸ h2.2⟩

end Asiabot
